import Mathlib

/-!
Verification of the asynchronous hostname-resolution coordinator
(lib/hostasyn.c): the completion callback `Curl_addrinfo_callback`, the
resolution consumer `Curl_async_resolved`, and the resolver-handle
lifecycle `Curl_resolver_create` / `Curl_resolver_create_with_userdata` /
`Curl_resolver_destroy`.

The embedding is shallow.  External collaborators (the DNS cache store
`Curl_cache_addr`, the connection setup `Curl_setup_conn`) are passed in as
function parameters, and every externally visible action of a modelled
function (field writes, lock and unlock of the shared cache, the cache
store, releasing an address list, invoking setup, disconnecting, invoking
the backend init and cleanup operations, freeing the handle) is recorded in
an event trace in program order, so that temporal claims are statements
about that trace.  Pointers that the coordinator never dereferences (the
address list, the cache entry) are modelled as abstract `Nat` references
wrapped in `Option` (`none` = NULL).
-/

namespace Hostasyn

/-- CURLcode return values.  Only `CURLE_OK` and `CURLE_OUT_OF_MEMORY`
appear literally in hostasyn.c; every other code is `other n`. -/
inductive CURLcode where
  | ok
  | out_of_memory
  | other (n : Nat)
deriving DecidableEq, Repr

/-- `CURL_ASYNC_SUCCESS` (equal to `ARES_SUCCESS` = 0 for the c-ares
backend and to `CURLE_OK` = 0 otherwise). -/
def CURL_ASYNC_SUCCESS : Int := 0

/-- Externally visible actions of `Curl_addrinfo_callback`, in program
order: writes to the async struct fields, share-lock operations, the cache
store (`Curl_cache_addr`, recording its arguments and returned entry) and
the address-list release (`Curl_freeaddrinfo`). -/
inductive Ev where
  | writeStatus (s : Int)
  | shareLock
  | cacheStore (ai : Nat) (host : String) (port : Int) (res : Option Nat)
  | freeAddrinfo (ai : Nat)
  | shareUnlock
  | writeDns (d : Option Nat)
  | writeDone
deriving DecidableEq, Repr

/-- The `conn->async` struct (struct Curl_async): hostname and port of the
lookup, backend status code, resolved `Curl_dns_entry` reference, and the
completion flag. -/
structure ConnAsync where
  hostname : String
  port : Int
  status : Int
  dns : Option Nat
  done : Bool
deriving DecidableEq, Repr

/-- Result of one invocation of the completion callback: the returned
CURLcode, the updated async struct, and the trace of actions. -/
structure CallbackOut where
  result : CURLcode
  conn : ConnAsync
  trace : List Ev
deriving DecidableEq, Repr

/-- The body of `Curl_addrinfo_callback` between the initial status write
and the final writes of `conn->async.dns` and `conn->async.done`: decides
the local `dns` and `result` and emits the lock / store / free / unlock
actions.  `share` models `data->share != NULL`; `cache_addr` is the
external `Curl_cache_addr`. -/
def cbCore (share : Bool) (cache_addr : Nat → String → Int → Option Nat)
    (host : String) (port : Int) (status : Int) (ai : Option Nat) :
    Option Nat × CURLcode × List Ev :=
  if status = CURL_ASYNC_SUCCESS then
    match ai with
    | some a =>
        let lockTr : List Ev := if share then [Ev.shareLock] else []
        let dns := cache_addr a host port
        let storeTr : List Ev := [Ev.cacheStore a host port dns]
        let failTr : List Ev := if dns = none then [Ev.freeAddrinfo a] else []
        let result := if dns = none then CURLcode.out_of_memory else CURLcode.ok
        let unlockTr : List Ev := if share then [Ev.shareUnlock] else []
        (dns, result, lockTr ++ storeTr ++ failTr ++ unlockTr)
    | none => (none, CURLcode.out_of_memory, [])
  else
    (none, CURLcode.ok, [])

/-- `Curl_addrinfo_callback(data, status, ai)`: writes
`conn->async.status = status`, runs the success-path store logic
(`cbCore`), then writes `conn->async.dns` and finally
`conn->async.done = TRUE`, returning the CURLcode result. -/
def Curl_addrinfo_callback (share : Bool)
    (cache_addr : Nat → String → Int → Option Nat)
    (conn : ConnAsync) (status : Int) (ai : Option Nat) : CallbackOut :=
  let r := cbCore share cache_addr conn.hostname conn.port status ai
  { result := r.2.1
    conn := { conn with status := status, dns := r.1, done := true }
    trace := Ev.writeStatus status :: (r.2.2 ++ [Ev.writeDns r.1, Ev.writeDone]) }

/-- True when the trace contains a `Curl_cache_addr` call that returned a
non-NULL entry. -/
def storeSucceededB (tr : List Ev) : Bool :=
  tr.any fun e => match e with
    | Ev.cacheStore _ _ _ (some _) => true
    | _ => false

/-- True when the trace contains any `Curl_cache_addr` call. -/
def storeAttemptedB (tr : List Ev) : Bool :=
  tr.any fun e => match e with
    | Ev.cacheStore _ _ _ _ => true
    | _ => false

/-- True when the trace contains a `Curl_freeaddrinfo` call. -/
def freeCalledB (tr : List Ev) : Bool :=
  tr.any fun e => match e with
    | Ev.freeAddrinfo _ => true
    | _ => false

/-- True when the trace contains a share-lock or share-unlock operation. -/
def lockTouchedB (tr : List Ev) : Bool :=
  tr.any fun e => match e with
    | Ev.shareLock => true
    | Ev.shareUnlock => true
    | _ => false

/-- Externally visible actions of `Curl_async_resolved`: the call to
`Curl_setup_conn` and the call to `Curl_disconnect` (with its
dead-connection argument, `FALSE` in the source). -/
inductive TEv where
  | setupCall
  | disconnectCall (dead : Bool)
deriving DecidableEq, Repr

/-- The fields of `struct connectdata` that `Curl_async_resolved` touches:
the pending-resolution struct `conn->async` and the active slot
`conn->dns_entry`. -/
structure Connectdata where
  async : ConnAsync
  dns_entry : Option Nat
deriving DecidableEq, Repr

/-- Result of one invocation of `Curl_async_resolved`: the returned
CURLcode, the updated connection fields, the `*protocol_done` out
parameter, and the trace of external calls. -/
structure ResolvedOut where
  result : CURLcode
  conn : Connectdata
  protocol_done : Bool
  trace : List TEv
deriving DecidableEq, Repr

/-- The claim step of `Curl_async_resolved` (lines 124..127): if
`conn->async.dns` is non-NULL, move it into `conn->dns_entry` and set
`conn->async.dns = NULL`. -/
def claimStep (conn : Connectdata) : Connectdata :=
  match conn.async.dns with
  | some d =>
      { conn with dns_entry := some d, async := { conn.async with dns := none } }
  | none => conn

/-- `Curl_async_resolved(conn, protocol_done)`: claims the resolved
reference (if any), calls `Curl_setup_conn`, and on a non-OK setup result
calls `Curl_disconnect(conn, FALSE)` before returning that result.
`setup` is the external `Curl_setup_conn`, returning the CURLcode and the
`*protocol_done` value. -/
def Curl_async_resolved (setup : Connectdata → CURLcode × Bool)
    (conn : Connectdata) : ResolvedOut :=
  let conn := claimStep conn
  let r := setup conn
  if r.1 = CURLcode.ok then
    { result := r.1, conn := conn, protocol_done := r.2,
      trace := [TEv.setupCall] }
  else
    { result := r.1, conn := conn, protocol_done := r.2,
      trace := [TEv.setupCall, TEv.disconnectCall false] }

/-- True when the trace of the consumer contains the `Curl_setup_conn`
call. -/
def setupCalledB (tr : List TEv) : Bool :=
  tr.any fun e => match e with
    | TEv.setupCall => true
    | _ => false

/-- True when the trace of the consumer contains a `Curl_disconnect`
call. -/
def disconnectCalledB (tr : List TEv) : Bool :=
  tr.any fun e => match e with
    | TEv.disconnectCall _ => true
    | _ => false

/-- The resolver capability table (struct Curl_resolver_callbacks).  Only
`init` is ever invoked by the modelled handle-lifecycle code; `init`
receives the current contents of the userdata slot (a `void *`, modelled
as `Nat` with 0 = NULL, since `init` takes its address and may rewrite it)
and returns its CURLcode together with the new slot contents.  The
remaining seven table entries (cleanup, duplicate, cancel, getsock,
is-resolved, wait, getaddrinfo) are opaque function pointers that the
lifecycle code only copies; `rest` stands for them, so that copying the
whole table is still observable. -/
structure Curl_resolver_callbacks where
  init : Nat → CURLcode × Nat
  rest : Nat

/-- `struct Curl_resolver`: the userdata slot plus the copied capability
table. -/
structure Curl_resolver where
  userdata : Nat
  callbacks : Curl_resolver_callbacks

/-- Externally visible actions of the handle lifecycle: the `init` call
(recording the slot contents passed in), the `cleanup` call (recording the
slot contents passed to it), and `free(resolver)`. -/
inductive REv where
  | initCall (ud : Nat)
  | cleanupCall (ud : Nat)
  | freeHandle
deriving DecidableEq, Repr

/-- `Curl_resolver_destroy(resolver)`: calls
`resolver->callbacks.cleanup(resolver->userdata)` and then frees the
handle.  Both actions are pure effects here, so the model returns the
trace. -/
def Curl_resolver_destroy (r : Curl_resolver) : List REv :=
  [REv.cleanupCall r.userdata, REv.freeHandle]

/-- `Curl_resolver_create(callbacks)`: allocates the handle, seeds
`userdata = 0`, copies the capability table, calls
`init(&ret->userdata)`; if init does not return CURLE_OK, destroys the
handle and returns NULL.  Returns the handle (or `none`) and the trace. -/
def Curl_resolver_create (cb : Curl_resolver_callbacks) :
    Option Curl_resolver × List REv :=
  let ret : Curl_resolver := { userdata := 0, callbacks := cb }
  let r := ret.callbacks.init ret.userdata
  let ret2 : Curl_resolver := { ret with userdata := r.2 }
  if r.1 ≠ CURLcode.ok then
    (none, REv.initCall ret.userdata :: Curl_resolver_destroy ret2)
  else
    (some ret2, [REv.initCall ret.userdata])

/-- `Curl_resolver_create_with_userdata(callbacks, userdata)`: identical
to `Curl_resolver_create` except that the userdata slot is seeded with the
caller-supplied value before `init` runs. -/
def Curl_resolver_create_with_userdata (cb : Curl_resolver_callbacks)
    (userdata : Nat) : Option Curl_resolver × List REv :=
  let ret : Curl_resolver := { userdata := userdata, callbacks := cb }
  let r := ret.callbacks.init ret.userdata
  let ret2 : Curl_resolver := { ret with userdata := r.2 }
  if r.1 ≠ CURLcode.ok then
    (none, REv.initCall ret.userdata :: Curl_resolver_destroy ret2)
  else
    (some ret2, [REv.initCall ret.userdata])

/-- The spec calls a status a failure when it is not the success value. -/
def statusDenotesFailure (s : Int) : Prop :=
  s ≠ CURL_ASYNC_SUCCESS

instance (s : Int) : Decidable (statusDenotesFailure s) := by
  unfold statusDenotesFailure
  infer_instance

/-- On every branch of the callback body, `writeDone` is not among the
events emitted before the final field writes. -/
theorem cbCore_no_writeDone (share : Bool)
    (cache_addr : Nat → String → Int → Option Nat)
    (host : String) (port : Int) (status : Int) (ai : Option Nat) :
    Ev.writeDone ∉ (cbCore share cache_addr host port status ai).2.2 := by
  unfold cbCore
  by_cases hs : status = CURL_ASYNC_SUCCESS
  · cases ai with
    | none => simp [hs]
    | some a =>
        by_cases hd : cache_addr a host port = none <;>
          cases share <;> simp [hs, hd]
  · simp [hs]

/-- C1: on every path through `Curl_addrinfo_callback`, the trace ends
with the write of `conn->async.done = TRUE`, the done write occurs nowhere
earlier, and both the status write and the write of the final
`conn->async.dns` value occur strictly before it. -/
theorem addrinfo_callback_done_written_last (share : Bool)
    (cache_addr : Nat → String → Int → Option Nat)
    (conn : ConnAsync) (status : Int) (ai : Option Nat) :
    ∃ pre,
      (Curl_addrinfo_callback share cache_addr conn status ai).trace
        = pre ++ [Ev.writeDone] ∧
      Ev.writeDone ∉ pre ∧
      Ev.writeStatus status ∈ pre ∧
      Ev.writeDns (Curl_addrinfo_callback share cache_addr conn status ai).conn.dns
        ∈ pre := by
  refine ⟨Ev.writeStatus status ::
      ((cbCore share cache_addr conn.hostname conn.port status ai).2.2 ++
        [Ev.writeDns (cbCore share cache_addr conn.hostname conn.port status ai).1]),
      ?_, ?_, ?_, ?_⟩
  · simp [Curl_addrinfo_callback]
  · simp only [List.mem_cons, List.mem_append, List.mem_singleton]
    push_neg
    exact ⟨by simp, cbCore_no_writeDone share cache_addr conn.hostname conn.port
      status ai, by simp⟩
  · simp
  · simp [Curl_addrinfo_callback]

/-- C2: after the callback returns, `conn->async.dns` is non-NULL exactly
when the supplied status is the success status and the `Curl_cache_addr`
store returned a non-NULL entry. -/
theorem addrinfo_callback_dns_iff_store_success (share : Bool)
    (cache_addr : Nat → String → Int → Option Nat)
    (conn : ConnAsync) (status : Int) (ai : Option Nat) :
    (Curl_addrinfo_callback share cache_addr conn status ai).conn.dns ≠ none ↔
      (status = CURL_ASYNC_SUCCESS ∧
        storeSucceededB
          (Curl_addrinfo_callback share cache_addr conn status ai).trace = true) := by
  unfold Curl_addrinfo_callback cbCore
  by_cases hs : status = CURL_ASYNC_SUCCESS
  · cases ai with
    | none => simp [hs, storeSucceededB]
    | some a =>
        rcases hd : cache_addr a conn.hostname conn.port with _ | d <;>
          cases share <;>
            simp [hs, hd, storeSucceededB]
  · simp [hs, storeSucceededB]

/-- C3: when the callback runs with the success status and a non-NULL
address list, exactly one of the two ownership outcomes occurs:
`Curl_cache_addr` returned a non-NULL entry, or `Curl_freeaddrinfo` was
called — the two booleans are always opposite. -/
theorem addrinfo_callback_exactly_one_owner (share : Bool)
    (cache_addr : Nat → String → Int → Option Nat)
    (conn : ConnAsync) (status : Int) (a : Nat)
    (hs : status = CURL_ASYNC_SUCCESS) :
    storeSucceededB
        (Curl_addrinfo_callback share cache_addr conn status (some a)).trace =
      !(freeCalledB
        (Curl_addrinfo_callback share cache_addr conn status (some a)).trace) := by
  unfold Curl_addrinfo_callback cbCore
  rcases hd : cache_addr a conn.hostname conn.port with _ | d <;>
    cases share <;>
      simp [hs, hd, storeSucceededB, freeCalledB]

/-- Witness for C3 at a concrete input: success status, address list 3, a
store that succeeds with entry 7. -/
theorem addrinfo_callback_exactly_one_owner_witness :
    (0 : Int) = CURL_ASYNC_SUCCESS ∧
      storeSucceededB
          (Curl_addrinfo_callback false (fun _ _ _ => some 7)
            ⟨"example.test", 80, 0, none, false⟩ 0 (some 3)).trace =
        !(freeCalledB
          (Curl_addrinfo_callback false (fun _ _ _ => some 7)
            ⟨"example.test", 80, 0, none, false⟩ 0 (some 3)).trace) :=
  ⟨rfl, addrinfo_callback_exactly_one_owner false (fun _ _ _ => some 7)
    ⟨"example.test", 80, 0, none, false⟩ 0 3 rfl⟩

/-- C4 counterexample: with success status, address list 3 and a cache
store that fails, the callback does release the list and does return
CURLE_OUT_OF_MEMORY, but `conn->async.status` keeps the supplied success
value — it is NOT set to an out-of-memory (failure) status, contrary to
the claim that the Pending Resolution status becomes OutOfMemory. -/
theorem addrinfo_callback_status_not_downgraded_cex :
    freeCalledB
        (Curl_addrinfo_callback false (fun _ _ _ => none)
          ⟨"example.test", 80, 0, none, false⟩ 0 (some 3)).trace = true ∧
    (Curl_addrinfo_callback false (fun _ _ _ => none)
        ⟨"example.test", 80, 0, none, false⟩ 0 (some 3)).result =
      CURLcode.out_of_memory ∧
    ¬ statusDenotesFailure
        (Curl_addrinfo_callback false (fun _ _ _ => none)
          ⟨"example.test", 80, 0, none, false⟩ 0 (some 3)).conn.status := by
  decide

/-- C4 amended: with success status, a non-NULL address list and a failing
cache store, the list is released immediately, the returned result is
downgraded to CURLE_OUT_OF_MEMORY, and `conn->async.dns` is NULL — but
`conn->async.status` retains the supplied success status (only the return
value, not the stored status field, records the out-of-memory failure). -/
theorem addrinfo_callback_store_failure (share : Bool)
    (cache_addr : Nat → String → Int → Option Nat)
    (conn : ConnAsync) (a : Nat)
    (hstore : cache_addr a conn.hostname conn.port = none) :
    freeCalledB
        (Curl_addrinfo_callback share cache_addr conn CURL_ASYNC_SUCCESS
          (some a)).trace = true ∧
    (Curl_addrinfo_callback share cache_addr conn CURL_ASYNC_SUCCESS
        (some a)).result = CURLcode.out_of_memory ∧
    (Curl_addrinfo_callback share cache_addr conn CURL_ASYNC_SUCCESS
        (some a)).conn.status = CURL_ASYNC_SUCCESS ∧
    (Curl_addrinfo_callback share cache_addr conn CURL_ASYNC_SUCCESS
        (some a)).conn.dns = none := by
  unfold Curl_addrinfo_callback cbCore
  cases share <;> simp [hstore, freeCalledB]

/-- Witness for the amended C4 at a concrete input: store always fails. -/
theorem addrinfo_callback_store_failure_witness :
    (fun (_ : Nat) (_ : String) (_ : Int) => (none : Option Nat)) 3
        "example.test" 80 = none ∧
    (freeCalledB
        (Curl_addrinfo_callback false (fun _ _ _ => none)
          ⟨"example.test", 80, 0, none, false⟩ CURL_ASYNC_SUCCESS
          (some 3)).trace = true ∧
      (Curl_addrinfo_callback false (fun _ _ _ => none)
          ⟨"example.test", 80, 0, none, false⟩ CURL_ASYNC_SUCCESS
          (some 3)).result = CURLcode.out_of_memory ∧
      (Curl_addrinfo_callback false (fun _ _ _ => none)
          ⟨"example.test", 80, 0, none, false⟩ CURL_ASYNC_SUCCESS
          (some 3)).conn.status = CURL_ASYNC_SUCCESS ∧
      (Curl_addrinfo_callback false (fun _ _ _ => none)
          ⟨"example.test", 80, 0, none, false⟩ CURL_ASYNC_SUCCESS
          (some 3)).conn.dns = none) :=
  ⟨rfl, addrinfo_callback_store_failure false (fun _ _ _ => none)
    ⟨"example.test", 80, 0, none, false⟩ 3 rfl⟩

/-- C8: when the callback runs with the success status but a NULL address
list, it returns CURLE_OUT_OF_MEMORY and performs no cache store and no
share-lock operation. -/
theorem addrinfo_callback_null_list_oom (share : Bool)
    (cache_addr : Nat → String → Int → Option Nat) (conn : ConnAsync) :
    (Curl_addrinfo_callback share cache_addr conn CURL_ASYNC_SUCCESS
        none).result = CURLcode.out_of_memory ∧
    storeAttemptedB
        (Curl_addrinfo_callback share cache_addr conn CURL_ASYNC_SUCCESS
          none).trace = false ∧
    lockTouchedB
        (Curl_addrinfo_callback share cache_addr conn CURL_ASYNC_SUCCESS
          none).trace = false := by
  unfold Curl_addrinfo_callback cbCore
  simp [storeAttemptedB, lockTouchedB]

/-- C5 counterexample: a connection whose stored status denotes failure
(status 1, no resolved reference) and a setup that succeeds.
`Curl_async_resolved` still invokes `Curl_setup_conn` and returns the
setup result CURLE_OK — it does not skip setup, does not report the stored
status, and performs no teardown.  This refutes the claim that on a
failure status the consumer skips setup and reports the stored status. -/
theorem async_resolved_ignores_status_cex :
    statusDenotesFailure
        (⟨⟨"example.test", 80, 1, none, true⟩, none⟩ :
          Connectdata).async.status ∧
    setupCalledB
        (Curl_async_resolved (fun _ => (CURLcode.ok, true))
          ⟨⟨"example.test", 80, 1, none, true⟩, none⟩).trace = true ∧
    (Curl_async_resolved (fun _ => (CURLcode.ok, true))
        ⟨⟨"example.test", 80, 1, none, true⟩, none⟩).result = CURLcode.ok ∧
    disconnectCalledB
        (Curl_async_resolved (fun _ => (CURLcode.ok, true))
          ⟨⟨"example.test", 80, 1, none, true⟩, none⟩).trace = false := by
  decide

/-- C5 amended: `Curl_async_resolved` never inspects the stored status;
even when that status denotes failure, it invokes `Curl_setup_conn` and
returns the setup result (teardown happens only when setup fails, as in
C7) — the stored status is not reported. -/
theorem async_resolved_ignores_status (setup : Connectdata → CURLcode × Bool)
    (conn : Connectdata)
    (_hfail : statusDenotesFailure conn.async.status) :
    setupCalledB (Curl_async_resolved setup conn).trace = true ∧
    (Curl_async_resolved setup conn).result = (setup (claimStep conn)).1 := by
  unfold Curl_async_resolved
  by_cases hr : (setup (claimStep conn)).1 = CURLcode.ok <;>
    simp [hr, setupCalledB]

/-- Witness for the amended C5 at a concrete failed resolution. -/
theorem async_resolved_ignores_status_witness :
    statusDenotesFailure
        (⟨⟨"example.test", 80, 1, none, true⟩, none⟩ :
          Connectdata).async.status ∧
    (setupCalledB
        (Curl_async_resolved (fun _ => (CURLcode.other 7, false))
          ⟨⟨"example.test", 80, 1, none, true⟩, none⟩).trace = true ∧
      (Curl_async_resolved (fun _ => (CURLcode.other 7, false))
          ⟨⟨"example.test", 80, 1, none, true⟩, none⟩).result =
        ((fun (_ : Connectdata) => (CURLcode.other 7, false))
          (claimStep ⟨⟨"example.test", 80, 1, none, true⟩, none⟩)).1) :=
  ⟨by decide, async_resolved_ignores_status (fun _ => (CURLcode.other 7, false))
    ⟨⟨"example.test", 80, 1, none, true⟩, none⟩ (by decide)⟩

/-- The connection state the consumer leaves behind is exactly the state
after the claim step, on both the OK and the failing setup branch. -/
theorem async_resolved_conn_eq_claimStep
    (setup : Connectdata → CURLcode × Bool) (conn : Connectdata) :
    (Curl_async_resolved setup conn).conn = claimStep conn := by
  unfold Curl_async_resolved
  by_cases hr : (setup (claimStep conn)).1 = CURLcode.ok <;> simp [hr]

/-- The claim step never leaves a resolved reference behind in the
pending-resolution slot. -/
theorem claimStep_async_dns_none (conn : Connectdata) :
    (claimStep conn).async.dns = none := by
  rcases hd : conn.async.dns with _ | d <;> simp [claimStep, hd]

/-- The claim step is idempotent: a second claim finds no data and changes
nothing. -/
theorem claimStep_idem (conn : Connectdata) :
    claimStep (claimStep conn) = claimStep conn := by
  rw [claimStep, claimStep_async_dns_none conn]

/-- C6: the consumer moves the resolved reference into `conn->dns_entry`
(leaving the slot unchanged when there was none), always leaves
`conn->async.dns` NULL, and on any second invocation the claim step finds
nothing: the second run leaves `dns_entry` exactly as it was. -/
theorem async_resolved_moves_and_clears
    (setup setup2 : Connectdata → CURLcode × Bool) (conn : Connectdata) :
    (Curl_async_resolved setup conn).conn.async.dns = none ∧
    (Curl_async_resolved setup conn).conn.dns_entry =
      (match conn.async.dns with
        | some d => some d
        | none => conn.dns_entry) ∧
    claimStep (Curl_async_resolved setup conn).conn =
      (Curl_async_resolved setup conn).conn ∧
    (Curl_async_resolved setup2
        (Curl_async_resolved setup conn).conn).conn.dns_entry =
      (Curl_async_resolved setup conn).conn.dns_entry := by
  rw [async_resolved_conn_eq_claimStep, async_resolved_conn_eq_claimStep,
    claimStep_idem]
  refine ⟨claimStep_async_dns_none conn, ?_, rfl, rfl⟩
  rcases hd : conn.async.dns with _ | d <;> simp [claimStep, hd]

/-- C7: the consumer returns exactly the `Curl_setup_conn` result; on a
non-OK result the trace is the setup call followed by
`Curl_disconnect(conn, FALSE)`; on CURLE_OK the trace is the setup call
alone, with no disconnect. -/
theorem async_resolved_teardown_on_setup_failure
    (setup : Connectdata → CURLcode × Bool) (conn : Connectdata) :
    (Curl_async_resolved setup conn).result = (setup (claimStep conn)).1 ∧
    (Curl_async_resolved setup conn).trace =
      (if (setup (claimStep conn)).1 = CURLcode.ok then [TEv.setupCall]
        else [TEv.setupCall, TEv.disconnectCall false]) := by
  unfold Curl_async_resolved
  by_cases hr : (setup (claimStep conn)).1 = CURLcode.ok <;> simp [hr]

/-- C9: when the supplied capability table has an `init` that does not
return CURLE_OK on the zero-seeded slot, `Curl_resolver_create` returns no
handle and its trace is exactly: the init call, then one cleanup call
(receiving the slot contents init left behind), then the free of the
handle — cleanup runs exactly once, before the memory is released. -/
theorem resolver_create_init_failure (cb : Curl_resolver_callbacks)
    (hfail : (cb.init 0).1 ≠ CURLcode.ok) :
    (Curl_resolver_create cb).1 = none ∧
    (Curl_resolver_create cb).2 =
      [REv.initCall 0, REv.cleanupCall (cb.init 0).2, REv.freeHandle] := by
  unfold Curl_resolver_create Curl_resolver_destroy
  simp [hfail]

/-- Witness for C9 with a concrete failing init that rewrites the slot. -/
theorem resolver_create_init_failure_witness :
    ((⟨fun u => (CURLcode.other 1, u + 5), 0⟩ :
        Curl_resolver_callbacks).init 0).1 ≠ CURLcode.ok ∧
    ((Curl_resolver_create ⟨fun u => (CURLcode.other 1, u + 5), 0⟩).1 =
        none ∧
      (Curl_resolver_create ⟨fun u => (CURLcode.other 1, u + 5), 0⟩).2 =
        [REv.initCall 0,
          REv.cleanupCall
            ((⟨fun u => (CURLcode.other 1, u + 5), 0⟩ :
              Curl_resolver_callbacks).init 0).2,
          REv.freeHandle]) :=
  ⟨by decide, resolver_create_init_failure
    ⟨fun u => (CURLcode.other 1, u + 5), 0⟩ (by decide)⟩

/-- C10: for every capability table, `Curl_resolver_create(callbacks)` is
extensionally the very same computation as
`Curl_resolver_create_with_userdata(callbacks, 0)`: same returned handle
(or NULL) and same trace of init/cleanup/free actions. -/
theorem resolver_create_eq_with_userdata_null
    (cb : Curl_resolver_callbacks) :
    Curl_resolver_create cb = Curl_resolver_create_with_userdata cb 0 := rfl

end Hostasyn
